import Mathlib

/-!
Shallow embedding of the tool-calling conversation loop of the `ai-agent`
repository (Go).  The embedded code is the graph-based agent shared by the
`ecommerce_customer_support`, `it_help_desk`, `soc` and `legal` scenarios
(their `assistant`, `toolExecutor` and branch closures are textually
identical up to the scenario record type and the tool-handler map), and the
direct tool-calling loop of the chapter-03 example (`main` in
src/unnamed/part_000).

Modelling conventions:
* eino `schema.Message` / `schema.ToolCall` / `schema.FunctionCall` become
  the structures `Message`, `ToolCall`, `FunctionCall` below.
* A tool call's `Function.Arguments` field is a raw JSON string in Go; we
  model the byte string abstractly as `ArgsPayload`: either a JSON object
  (a field list) or a `malformed` byte string on which `json.Unmarshal`
  fails.
* Go `float64` values are modelled as integers: every float the scenarios
  and claims exercise is integral (tool arguments such as `x=2, y=3`), and
  float64 arithmetic is exact there.  `goFloatString` models the `%v`
  formatting on integral values (Go prints `5` for the float `5.0`).
* A function that can panic at runtime (out-of-bounds index, method call
  through a nil interface, nil-pointer dereference) returns `Option` /
  a dedicated error constructor, with `none` (resp. the constructor)
  marking the panic.
* The external chat-model client (`chatModel.Generate`) is a parameter
  `generate : List Message → Except String String`-style function, exactly
  the dependency the Go code closes over.
-/

/-- JSON scalar values appearing in tool-call argument objects (numbers
restricted to the integral values the examples exercise). -/
inductive JValue where
  | str (s : String)
  | num (n : ℤ)
  | jbool (b : Bool)
  | jnull
deriving Repr, DecidableEq

/-- The serialized `Function.Arguments` payload of a tool call: either a
well-formed JSON object (named fields) or a malformed byte string on which
`json.Unmarshal` reports an error. -/
inductive ArgsPayload where
  | obj (fields : List (String × JValue))
  | malformed (raw : String)
deriving Repr, DecidableEq

/-- Look up a field of a JSON object (first binding wins, as in a Go map
produced by `json.Unmarshal`). -/
def lookupField (fields : List (String × JValue)) (k : String) : Option JValue :=
  (fields.find? (fun p => p.1 = k)).map Prod.snd

/-- Model of `json.Unmarshal` filling a Go `string` struct field: the field's
value if present with the right type, otherwise the zero value `""`
(the unmarshal error, if any, is discarded by the callers embedded here). -/
def getStr (p : ArgsPayload) (k : String) : String :=
  match p with
  | .malformed _ => ""
  | .obj fs =>
    match lookupField fs k with
    | some (.str s) => s
    | _ => ""

/-- Model of `json.Unmarshal` filling a Go `float64` struct field: the
field's value if present with the right type, otherwise the zero value `0`. -/
def getNum (p : ArgsPayload) (k : String) : ℤ :=
  match p with
  | .malformed _ => 0
  | .obj fs =>
    match lookupField fs k with
    | some (.num n) => n
    | _ => 0

/-- Go `fmt.Sprintf("%v", x)` / JSON encoding of a `float64` holding an
integral value: Go prints `5` for the float `5.0`. -/
def goFloatString (n : ℤ) : String :=
  toString n

/-- eino `schema.RoleType`. -/
inductive Role where
  | system
  | user
  | assistant
  | tool
deriving Repr, DecidableEq

/-- eino `schema.FunctionCall`: the requested tool name and its serialized
arguments. -/
structure FunctionCall where
  name : String
  arguments : ArgsPayload
deriving Repr, DecidableEq

/-- eino `schema.ToolCall`: one requested tool invocation on an assistant
message. -/
structure ToolCall where
  id : String
  function : FunctionCall
deriving Repr, DecidableEq

/-- eino `schema.Message`: one conversation turn.  `toolCalls` is non-empty
only on assistant messages requesting tool use; `toolCallID` is set only on
tool-role result messages. -/
structure Message where
  role : Role
  content : String
  toolCalls : List ToolCall := []
  toolCallID : String := ""
deriving Repr, DecidableEq

/-- `schema.SystemMessage`. -/
def systemMessage (content : String) : Message :=
  { role := .system, content := content }

/-- `schema.UserMessage`. -/
def userMessage (content : String) : Message :=
  { role := .user, content := content }

/-- The per-scenario agent state (`AgentState` in each scenario package):
a scenario record (`Order` / `Ticket` / `Incident` / `Matter`, possibly a
nil pointer) threaded alongside the message log.  The record type is the
parameter `Ctx`; the ecommerce scenario instantiates it with `Option Order`. -/
structure AgentState (Ctx : Type) where
  context : Ctx
  messages : List Message
deriving Repr, DecidableEq

/-- The combined unmarshal-and-invoke action the scenario `toolExecutor`
performs for one registered tool: the `switch tc.Function.Name` arm that
unmarshals the arguments into the tool's parameter struct (discarding the
unmarshal error) followed by the call through the `toolHandlers` map entry.
`.ok s` is a Go `(s, nil)` return, `.error e` a `("", err)` return. -/
abbrev Handler := ArgsPayload → Except String String

/-- Body of the scenario `toolExecutor`'s loop for one tool call
(part_012 lines 567-606 and its it_help_desk/soc/legal twins):
look the name up in `toolHandlers`; if absent, log and `continue`
(no message is produced); otherwise run the handler, replacing an error
outcome `err` by the content `"Error: <err>"` (`fmt.Sprintf("Error: %v", err)`),
and produce the tool-role result message carrying the call's id. -/
def execToolCall (handlers : String → Option Handler) (tc : ToolCall) :
    Option Message :=
  match handlers tc.function.name with
  | none => none
  | some h =>
    let resultStr :=
      match h tc.function.arguments with
      | .ok s => s
      | .error e => "Error: " ++ e
    some { role := .tool, content := resultStr, toolCallID := tc.id }

/-- The scenario `toolExecutor` node: reads
`state.Messages[len(state.Messages)-1]` (outer `none` = index panic on an
empty log), returns the state unchanged when the last message carries no
tool calls, and otherwise appends the result messages produced by
`execToolCall` for each call in order (calls whose name is not registered
contribute nothing). -/
def toolExecutor (handlers : String → Option Handler) {Ctx : Type}
    (state : AgentState Ctx) : Option (AgentState Ctx) :=
  match state.messages.getLast? with
  | none => none
  | some lastMsg =>
    if lastMsg.toolCalls.isEmpty then some state
    else some { state with
      messages := state.messages ++ lastMsg.toolCalls.filterMap (execToolCall handlers) }

/-- Targets of the graph branch out of the assistant node. -/
inductive NodeName where
  | tools
  | endNode
deriving Repr, DecidableEq

/-- The graph branch closure (part_012 lines 619-625 and twins): reads the
last message (`none` = index panic on an empty log) and routes to the
`tools` node when it has tool calls, otherwise to `compose.END`. -/
def branch {Ctx : Type} (state : AgentState Ctx) : Option NodeName :=
  match state.messages.getLast? with
  | none => none
  | some lastMsg =>
    some (if lastMsg.toolCalls.length > 0 then .tools else .endNode)

/-- The scenario `assistant` node, parameterized by the scenario's
system-prompt builder and by the external chat model's `Generate`:
prepend the system message built from the scenario record to the log,
call the model, propagate a model error unchanged (`return nil, err`),
otherwise append the response to the log. -/
def assistant {Ctx : Type} (promptBuilder : Ctx → String)
    (generate : List Message → Except String Message)
    (state : AgentState Ctx) : Except String (AgentState Ctx) :=
  match generate (systemMessage (promptBuilder state.context) :: state.messages) with
  | .error e => .error e
  | .ok resp => .ok { state with messages := state.messages ++ [resp] }

/-- Outcome of running the compiled graph. -/
inductive RunError where
  | modelFailure (cause : String)
  | indexPanic
  | fuelExhausted
deriving Repr, DecidableEq

/-- The compiled graph `START → assistant → (branch) → tools → assistant …`
run to completion.  `fuel` bounds the number of assistant rounds so the
model stays total; the Go graph has no such bound, and every theorem below
quantifies over `fuel`.  `.error (.modelFailure e)` is the graph `Invoke`
returning the assistant node's error to the caller; `.error .indexPanic`
marks a would-be out-of-bounds index in `branch` or `toolExecutor`. -/
def runGraph {Ctx : Type} (promptBuilder : Ctx → String)
    (generate : List Message → Except String Message)
    (handlers : String → Option Handler) :
    Nat → AgentState Ctx → Except RunError (AgentState Ctx)
  | 0, _ => .error .fuelExhausted
  | fuel + 1, state =>
    match assistant promptBuilder generate state with
    | .error e => .error (.modelFailure e)
    | .ok state1 =>
      match branch state1 with
      | none => .error .indexPanic
      | some .endNode => .ok state1
      | some .tools =>
        match toolExecutor handlers state1 with
        | none => .error .indexPanic
        | some state2 => runGraph promptBuilder generate handlers fuel state2

/-! ## Ecommerce customer-support scenario (src/unnamed/part_012, lines 387-633) -/

/-- `ecommerce_customer_support.Order`, the scenario record. -/
structure Order where
  orderID : String
  status : String
  total : ℤ
  customerID : String
deriving Repr, DecidableEq

/-- `SendCustomerMessageArgs`. -/
structure SendCustomerMessageArgs where
  orderID : String
  text : String
deriving Repr, DecidableEq

/-- `IssueRefundArgs`. -/
structure IssueRefundArgs where
  orderID : String
  amount : ℤ
deriving Repr, DecidableEq

/-- `CancelOrderArgs`. -/
structure CancelOrderArgs where
  orderID : String
deriving Repr, DecidableEq

/-- `UpdateAddressArgs`. -/
structure UpdateAddressArgs where
  orderID : String
  shippingAddress : String
deriving Repr, DecidableEq

/-- `json.Unmarshal` into a zero-valued `SendCustomerMessageArgs`, error
discarded (`_ = json.Unmarshal(...)`). -/
def unmarshalSendCustomerMessageArgs (p : ArgsPayload) : SendCustomerMessageArgs :=
  { orderID := getStr p "order_id", text := getStr p "text" }

/-- `json.Unmarshal` into a zero-valued `IssueRefundArgs`, error discarded. -/
def unmarshalIssueRefundArgs (p : ArgsPayload) : IssueRefundArgs :=
  { orderID := getStr p "order_id", amount := getNum p "amount" }

/-- `json.Unmarshal` into a zero-valued `CancelOrderArgs`, error discarded. -/
def unmarshalCancelOrderArgs (p : ArgsPayload) : CancelOrderArgs :=
  { orderID := getStr p "order_id" }

/-- `json.Unmarshal` into a zero-valued `UpdateAddressArgs`, error discarded. -/
def unmarshalUpdateAddressArgs (p : ArgsPayload) : UpdateAddressArgs :=
  { orderID := getStr p "order_id", shippingAddress := getStr p "shipping_address" }

/-- `SendCustomerMessage`: prints its arguments (side effect dropped) and
returns `("sent", nil)`. -/
def SendCustomerMessage (_ : SendCustomerMessageArgs) : Except String String :=
  .ok "sent"

/-- `IssueRefund`: returns `("refund_queued", nil)`. -/
def IssueRefund (_ : IssueRefundArgs) : Except String String :=
  .ok "refund_queued"

/-- `CancelOrder`: returns `("cancelled", nil)`. -/
def CancelOrder (_ : CancelOrderArgs) : Except String String :=
  .ok "cancelled"

/-- `UpdateAddressForOrder`: returns `("address_updated", nil)`. -/
def UpdateAddressForOrder (_ : UpdateAddressArgs) : Except String String :=
  .ok "address_updated"

/-- The ecommerce `toolHandlers` map fused with the executor's
per-name unmarshal switch (the map keys and the switch cases coincide). -/
def ecommerceToolHandlers : String → Option Handler := fun name =>
  if name = "send_customer_message" then
    some (fun p => SendCustomerMessage (unmarshalSendCustomerMessageArgs p))
  else if name = "issue_refund" then
    some (fun p => IssueRefund (unmarshalIssueRefundArgs p))
  else if name = "cancel_order" then
    some (fun p => CancelOrder (unmarshalCancelOrderArgs p))
  else if name = "update_address_for_order" then
    some (fun p => UpdateAddressForOrder (unmarshalUpdateAddressArgs p))
  else none

/-- A JSON string literal; escaping of special characters is elided (no
value used by a theorem contains one). -/
def jsonStr (s : String) : String := "\"" ++ s ++ "\""

/-- `json.Marshal(state.Order)`: `null` for a nil pointer, otherwise the
object in struct-tag field order. -/
def orderJSON : Option Order → String
  | none => "null"
  | some o =>
    "\x7b\"order_id\":" ++ jsonStr o.orderID ++
    ",\"status\":" ++ jsonStr o.status ++
    ",\"total\":" ++ goFloatString o.total ++
    ",\"customer_id\":" ++ jsonStr o.customerID ++ "\x7d"

/-- The ecommerce assistant node's system prompt (part_012 lines 537-544). -/
def ecommerceSysPrompt (order : Option Order) : String :=
  "You are a helpful e-commerce support agent.\n" ++
  "When you act, you MUST do exactly TWO steps in order:\n" ++
  "  1) call one business tool (issue_refund / cancel_order / modify_order)\n" ++
  "  2) call send_customer_message with confirmation text\n" ++
  "Then STOP.\n\n" ++
  "ORDER: " ++ orderJSON order

/-! ## Direct tool-calling loop (src/unnamed/part_000) -/

/-- `MathArgs` of the chapter-03 example. -/
structure MathArgs where
  x : ℤ
  y : ℤ
deriving Repr, DecidableEq

/-- `json.Unmarshal` into `MathArgs` as performed inside
`utils.InferTool`'s wrapper; here the wrapper does NOT discard the error:
a malformed payload makes `InvokableRun` return an error. -/
def unmarshalMathArgs (p : ArgsPayload) : Except String MathArgs :=
  match p with
  | .malformed raw => .error ("invalid character in " ++ raw)
  | .obj _ => .ok { x := getNum p "x", y := getNum p "y" }

/-- `math.Pow` restricted to the shapes the example exercises:
exact for non-negative integral exponents, `0` elsewhere (no theorem
relies on the fallback). -/
def powFloat (x y : ℤ) : ℤ :=
  if 0 ≤ y then x ^ y.toNat else 0

/-- `multiply`: `fmt.Sprintf("%v", args.X*args.Y)`. -/
def multiply (args : MathArgs) : Except String String :=
  .ok (goFloatString (args.x * args.y))

/-- `exponentiate`: `fmt.Sprintf("%v", math.Pow(args.X, args.Y))`. -/
def exponentiate (args : MathArgs) : Except String String :=
  .ok (goFloatString (powFloat args.x args.y))

/-- `add`: `fmt.Sprintf("%v", args.X+args.Y)`. -/
def add (args : MathArgs) : Except String String :=
  .ok (goFloatString (args.x + args.y))

/-- The `toolMap` built in `main` from the three `InferTool` wrappers:
each entry is `InvokableRun`, i.e. unmarshal-then-invoke, returning
`("", err)` when the unmarshal fails. -/
def mathToolMap : String → Option (ArgsPayload → Except String String) := fun name =>
  if name = "multiply" then some (fun p => (unmarshalMathArgs p).bind multiply)
  else if name = "exponentiate" then some (fun p => (unmarshalMathArgs p).bind exponentiate)
  else if name = "add" then some (fun p => (unmarshalMathArgs p).bind add)
  else none

/-- The dispatch loop `for _, tc := range resp.ToolCalls` of part_000
lines 69-73: `toolMap[tc.Function.Name].InvokableRun(...)` calls a method
through the map entry, which for a missing key is a nil interface — a
process-level panic, modelled as `none`.  On a successful lookup the
returned error is discarded (`result, _ :=`), leaving `result = ""` when
`InvokableRun` failed, and the tool message is appended. -/
def execToolCalls (tcs : List ToolCall) (msgs : List Message) :
    Option (List Message) :=
  match tcs with
  | [] => some msgs
  | tc :: rest =>
    match mathToolMap tc.function.name with
    | none => none
    | some run =>
      let result :=
        match run tc.function.arguments with
        | .ok s => s
        | .error _ => ""
      execToolCalls rest
        (msgs ++ [{ role := .tool, content := result, toolCallID := tc.id }])

/-- Outcome of the direct loop: `fatal` is the `log.Fatal(err)` after the
first `Generate`; `panicked` is a runtime panic (nil-interface dispatch,
or the nil-pointer dereference `final.Content` after a discarded error on
the second `Generate`); `ok` carries the message log `msgs` as the loop
leaves it plus the printed final content (which `main` never appends). -/
inductive DirectOutcome where
  | fatal (e : String)
  | panicked
  | ok (log : List Message) (finalContent : String)
deriving Repr, DecidableEq

/-- `main` of part_000, parameterized by the chat model's `Generate`:
seed the log with the single user message (no system message), call the
model, fatally exit on error, append the response, execute its tool calls,
call the model again on the extended log and print `final.Content`. -/
def runDirectLoop (generate : List Message → Except String Message)
    (userText : String) : DirectOutcome :=
  let msgs := [userMessage userText]
  match generate msgs with
  | .error e => .fatal e
  | .ok resp =>
    let msgs1 := msgs ++ [resp]
    match execToolCalls resp.toolCalls msgs1 with
    | none => .panicked
    | some msgs2 =>
      match generate msgs2 with
      | .error _ => .panicked
      | .ok final => .ok msgs2 final.content

/-- The scripted Model Invoker of the spec's round-trip test (section 8):
request `add(x=2,y=3)` until a tool message with content `"5"` is in the
log, then answer with final content `"5"`. -/
def scriptedInvoker (msgs : List Message) : Except String Message :=
  if msgs.any (fun m => m.role = .tool ∧ m.content = "5") then
    .ok { role := .assistant, content := "5" }
  else
    .ok { role := .assistant, content := "",
          toolCalls := [{ id := "call_1",
                          function := { name := "add",
                                        arguments := .obj [("x", .num 2), ("y", .num 3)] } }] }

/-! ## Helper constructors and shared lemmas -/

/-- Build a `ToolCall` (the shape the model's response carries). -/
def toolCallMk (id name : String) (args : ArgsPayload) : ToolCall :=
  { id := id, function := { name := name, arguments := args } }

/-- The tool-role result message the executors construct:
`&schema.Message{Role: schema.Tool, Content: content, ToolCallID: id}`. -/
def toolResultMsg (content id : String) : Message :=
  { role := .tool, content := content, toolCallID := id }

/-- An assistant response message carrying the given tool calls. -/
def assistantMsg (content : String) (tcs : List ToolCall) : Message :=
  { role := .assistant, content := content, toolCalls := tcs }

/-- The executor's per-call body yields a message exactly when the call's
name is registered. -/
theorem execToolCall_isSome (handlers : String → Option Handler) (tc : ToolCall) :
    (execToolCall handlers tc).isSome = (handlers tc.function.name).isSome := by
  unfold execToolCall
  cases handlers tc.function.name <;> rfl

/-- Projection of the executor's appended messages: role and back-reference
id, one per registered call, in request order. -/
theorem execToolCall_proj (handlers : String → Option Handler) (l : List ToolCall) :
    (l.filterMap (execToolCall handlers)).map (fun m => (m.role, m.toolCallID)) =
      (l.filter (fun tc => (handlers tc.function.name).isSome)).map
        (fun tc => (Role.tool, tc.id)) := by
  induction l with
  | nil => rfl
  | cons tc rest ih =>
    cases h : handlers tc.function.name with
    | none => simpa [List.filterMap_cons, List.filter_cons, execToolCall, h] using ih
    | some hd => simpa [List.filterMap_cons, List.filter_cons, execToolCall, h] using ih

/-- A successful assistant node extends the log by exactly the model's
response. -/
theorem assistant_ok_messages {Ctx : Type} (promptBuilder : Ctx → String)
    (generate : List Message → Except String Message)
    (state state1 : AgentState Ctx)
    (h : assistant promptBuilder generate state = .ok state1) :
    ∃ resp, state1 = { state with messages := state.messages ++ [resp] } := by
  unfold assistant at h
  cases hg : generate (systemMessage (promptBuilder state.context) :: state.messages) with
  | error e => rw [hg] at h; exact absurd h (by simp)
  | ok resp => rw [hg] at h; exact ⟨resp, by injection h with h; exact h.symm⟩

/-- The executor never panics on a non-empty log. -/
theorem toolExecutor_isSome_of_getLast {Ctx : Type}
    (handlers : String → Option Handler) (state : AgentState Ctx)
    (lastMsg : Message) (hl : state.messages.getLast? = some lastMsg) :
    (toolExecutor handlers state).isSome := by
  unfold toolExecutor
  rw [hl]
  by_cases h : lastMsg.toolCalls.isEmpty <;> simp [h]

/-- Unfolding of the executor at a known last message. -/
theorem toolExecutor_eq {Ctx : Type} (handlers : String → Option Handler)
    (state : AgentState Ctx) (lastMsg : Message)
    (hl : state.messages.getLast? = some lastMsg) :
    toolExecutor handlers state =
      if lastMsg.toolCalls.isEmpty then some state
      else some { state with
        messages := state.messages ++ lastMsg.toolCalls.filterMap (execToolCall handlers) } := by
  unfold toolExecutor
  rw [hl]

/-- Unfolding of the branch at a known last message. -/
theorem branch_eq {Ctx : Type} (state : AgentState Ctx) (lastMsg : Message)
    (hl : state.messages.getLast? = some lastMsg) :
    branch state = some (if lastMsg.toolCalls.length > 0 then .tools else .endNode) := by
  unfold branch
  rw [hl]

/-- One unfolding step of the graph run. -/
theorem runGraph_succ {Ctx : Type} (promptBuilder : Ctx → String)
    (generate : List Message → Except String Message)
    (handlers : String → Option Handler) (fuel : Nat) (state : AgentState Ctx) :
    runGraph promptBuilder generate handlers (fuel + 1) state =
      match assistant promptBuilder generate state with
      | .error e => .error (.modelFailure e)
      | .ok state1 =>
        match branch state1 with
        | none => .error .indexPanic
        | some .endNode => .ok state1
        | some .tools =>
          match toolExecutor handlers state1 with
          | none => .error .indexPanic
          | some state2 => runGraph promptBuilder generate handlers fuel state2 := rfl

/-! ## Claim C1 -/

/-- A log whose last assistant message requests one invocation of the
unregistered tool `check_inventory`. -/
def c1UnknownState : AgentState (Option Order) :=
  { context := none,
    messages := [assistantMsg "" [toolCallMk "call_9" "check_inventory" (.obj [])]] }

/-- C1 counterexample: the triggering assistant message lists exactly one
invocation, yet the executor appends zero tool-role messages (the unknown
name is skipped with `continue`), so the log is not extended by exactly one
message per listed invocation. -/
theorem C1_counterexample :
    c1UnknownState.messages.getLast? =
      some (assistantMsg "" [toolCallMk "call_9" "check_inventory" (.obj [])]) ∧
    (assistantMsg "" [toolCallMk "call_9" "check_inventory" (.obj [])]).toolCalls.length = 1 ∧
    toolExecutor ecommerceToolHandlers c1UnknownState = some c1UnknownState := by
  exact ⟨rfl, rfl, by decide⟩

/-- C1 amended: for every conversation round the executor extends the log
by exactly one tool-role message per invocation whose name is registered,
in the original invocation order, each carrying the matching invocation id;
invocations with unregistered names contribute no message. -/
theorem C1_theorem {Ctx : Type} (handlers : String → Option Handler)
    (state : AgentState Ctx) (lastMsg : Message)
    (hl : state.messages.getLast? = some lastMsg) :
    ∃ s' appended, toolExecutor handlers state = some s' ∧
      s'.messages = state.messages ++ appended ∧
      appended.map (fun m => (m.role, m.toolCallID)) =
        (lastMsg.toolCalls.filter (fun tc => (handlers tc.function.name).isSome)).map
          (fun tc => (Role.tool, tc.id)) := by
  rw [toolExecutor_eq handlers state lastMsg hl]
  by_cases h : lastMsg.toolCalls.isEmpty
  · rw [if_pos h]
    exact ⟨state, [], rfl, by simp, by rw [List.isEmpty_iff.mp h]; rfl⟩
  · rw [if_neg h]
    exact ⟨_, _, rfl, rfl, execToolCall_proj handlers lastMsg.toolCalls⟩

/-- A round requesting a registered tool (`cancel_order`) followed by an
unregistered one (`check_warehouse`). -/
def c1MixedState : AgentState (Option Order) :=
  { context := none,
    messages := [assistantMsg ""
      [toolCallMk "call_a" "cancel_order" (.obj [("order_id", .str "A1")]),
       toolCallMk "call_b" "check_warehouse" (.obj [])]] }

/-- C1 witness: the amended statement evaluated on a concrete mixed round. -/
theorem C1_witness :
    ∃ s' appended, toolExecutor ecommerceToolHandlers c1MixedState = some s' ∧
      s'.messages = c1MixedState.messages ++ appended ∧
      appended.map (fun m => (m.role, m.toolCallID)) =
        ((assistantMsg ""
          [toolCallMk "call_a" "cancel_order" (.obj [("order_id", .str "A1")]),
           toolCallMk "call_b" "check_warehouse" (.obj [])]).toolCalls.filter
          (fun tc => (ecommerceToolHandlers tc.function.name).isSome)).map
          (fun tc => (Role.tool, tc.id)) :=
  C1_theorem ecommerceToolHandlers c1MixedState
    (assistantMsg ""
      [toolCallMk "call_a" "cancel_order" (.obj [("order_id", .str "A1")]),
       toolCallMk "call_b" "check_warehouse" (.obj [])]) rfl

/-! ## Claim C2 -/

/-- A round requesting only the unregistered tool `reset_password`. -/
def c2UnregState : AgentState (Option Order) :=
  { context := none,
    messages := [userMessage "help",
      assistantMsg "" [toolCallMk "call_2" "reset_password" (.obj [])]] }

/-- C2 counterexample: for an unregistered tool name the executor indeed
does not raise, but it appends no tool-role message at all — in particular
none whose content starts with `"Error:"` — leaving the log unchanged. -/
theorem C2_counterexample :
    ecommerceToolHandlers "reset_password" = none ∧
    toolExecutor ecommerceToolHandlers c2UnregState = some c2UnregState ∧
    c2UnregState.messages.all (fun m => !(m.content.startsWith "Error:")) = true := by
  exact ⟨rfl, by decide, by decide⟩

/-- C2 amended: a round whose invocations all name unregistered tools does
not raise out of the executor and appends no tool-role message (each
unknown name is skipped with a log line and `continue`); the loop then
re-enters the assistant (AWAITING_MODEL) node with only the assistant
message appended to the log. -/
theorem C2_theorem {Ctx : Type} (promptBuilder : Ctx → String)
    (generate : List Message → Except String Message)
    (handlers : String → Option Handler) (fuel : Nat)
    (state : AgentState Ctx) (resp : Message)
    (hgen : generate (systemMessage (promptBuilder state.context) :: state.messages) =
      .ok resp)
    (hcalls : resp.toolCalls ≠ [])
    (hunreg : ∀ tc ∈ resp.toolCalls, handlers tc.function.name = none) :
    runGraph promptBuilder generate handlers (fuel + 1) state =
      runGraph promptBuilder generate handlers fuel
        { state with messages := state.messages ++ [resp] } := by
  have hfm : resp.toolCalls.filterMap (execToolCall handlers) = [] := by
    rw [List.filterMap_eq_nil_iff]
    intro tc htc
    unfold execToolCall
    rw [hunreg tc htc]
  have ha : assistant promptBuilder generate state =
      .ok { state with messages := state.messages ++ [resp] } := by
    unfold assistant
    rw [hgen]
  have hb : branch { state with messages := state.messages ++ [resp] } =
      some NodeName.tools := by
    unfold branch
    simp only [List.getLast?_concat]
    rw [if_pos (List.length_pos.mpr hcalls)]
  have ht : toolExecutor handlers { state with messages := state.messages ++ [resp] } =
      some { state with messages := state.messages ++ [resp] } := by
    unfold toolExecutor
    simp only [List.getLast?_concat]
    rw [if_neg (by simp [List.isEmpty_iff, hcalls]), hfm]
    simp
  rw [runGraph_succ]
  simp only [ha, hb, ht]

/-- C2 witness: the amended statement on a concrete unregistered-only round. -/
theorem C2_witness :
    runGraph ecommerceSysPrompt
      (fun _ => Except.ok (assistantMsg "" [toolCallMk "call_2" "reset_password" (.obj [])]))
      ecommerceToolHandlers 1 { context := none, messages := [userMessage "help"] } =
    runGraph ecommerceSysPrompt
      (fun _ => Except.ok (assistantMsg "" [toolCallMk "call_2" "reset_password" (.obj [])]))
      ecommerceToolHandlers 0
      { context := none, messages := [userMessage "help",
          assistantMsg "" [toolCallMk "call_2" "reset_password" (.obj [])]] } :=
  C2_theorem ecommerceSysPrompt _ ecommerceToolHandlers 0
    { context := none, messages := [userMessage "help"] }
    (assistantMsg "" [toolCallMk "call_2" "reset_password" (.obj [])])
    rfl (by decide)
    (by
      intro tc htc
      simp only [assistantMsg, List.mem_singleton] at htc
      subst htc
      rfl)

/-! ## Claim C3 -/

/-- A round invoking the registered tool `cancel_order` with a malformed
arguments payload. -/
def c3MalformedState : AgentState (Option Order) :=
  { context := none,
    messages := [assistantMsg ""
      [toolCallMk "call_3" "cancel_order" (.malformed "not-json")]] }

/-- C3 counterexample: on a malformed payload the executor appends the
handler's ordinary success result `"cancelled"` — `json.Unmarshal`'s error
is discarded and the handler runs on zero-valued arguments — not an error
description (the content does not start with `"Error"`). -/
theorem C3_counterexample :
    toolExecutor ecommerceToolHandlers c3MalformedState =
      some { c3MalformedState with
        messages := c3MalformedState.messages ++ [toolResultMsg "cancelled" "call_3"] } ∧
    unmarshalCancelOrderArgs (.malformed "not-json") = { orderID := "" } ∧
    CancelOrder { orderID := "" } = .ok "cancelled" := by
  exact ⟨by decide, rfl, rfl⟩

/-- On a malformed payload every registered ecommerce handler entry still
succeeds: the discarded `json.Unmarshal` error leaves the argument struct
zero-valued and the handler returns its ordinary canned result, never an
error. -/
theorem ecommerceToolHandlers_malformed_ok (name : String) (h : Handler) (raw : String)
    (hres : ecommerceToolHandlers name = some h) :
    ∃ result, h (.malformed raw) = .ok result := by
  unfold ecommerceToolHandlers at hres
  by_cases h1 : name = "send_customer_message"
  · rw [if_pos h1] at hres
    injection hres with hres
    subst hres
    exact ⟨"sent", rfl⟩
  · rw [if_neg h1] at hres
    by_cases h2 : name = "issue_refund"
    · rw [if_pos h2] at hres
      injection hres with hres
      subst hres
      exact ⟨"refund_queued", rfl⟩
    · rw [if_neg h2] at hres
      by_cases h3 : name = "cancel_order"
      · rw [if_pos h3] at hres
        injection hres with hres
        subst hres
        exact ⟨"cancelled", rfl⟩
      · rw [if_neg h3] at hres
        by_cases h4 : name = "update_address_for_order"
        · rw [if_pos h4] at hres
          injection hres with hres
          subst hres
          exact ⟨"address_updated", rfl⟩
        · rw [if_neg h4] at hres
          exact absurd hres (by simp)

/-- C3 amended: for every invocation whose arguments payload fails to
deserialize — any registered tool, at any position in any round — the
executor never fails at process level, but the failure is silently ignored
rather than reported: the `json.Unmarshal` error is discarded, the handler
runs on zero-valued arguments and succeeds with its ordinary result
(`.ok result`, never the `"Error: ..."` branch), and that result is the
content of the tool-role message appended for the invocation.  The
it_help_desk/soc/legal executors discard the unmarshal error identically. -/
theorem C3_theorem {Ctx : Type} (state : AgentState Ctx) (lastMsg : Message)
    (tc : ToolCall) (h : Handler) (raw : String)
    (hl : state.messages.getLast? = some lastMsg)
    (hmem : tc ∈ lastMsg.toolCalls)
    (hargs : tc.function.arguments = .malformed raw)
    (hres : ecommerceToolHandlers tc.function.name = some h) :
    ∃ s' result, toolExecutor ecommerceToolHandlers state = some s' ∧
      h (.malformed raw) = .ok result ∧
      toolResultMsg result tc.id ∈ s'.messages := by
  obtain ⟨result, hok⟩ := ecommerceToolHandlers_malformed_ok tc.function.name h raw hres
  have hne : ¬lastMsg.toolCalls.isEmpty := by
    rw [List.isEmpty_iff]
    intro hnil
    rw [hnil] at hmem
    exact absurd hmem (List.not_mem_nil tc)
  rw [toolExecutor_eq ecommerceToolHandlers state lastMsg hl, if_neg hne]
  refine ⟨_, result, rfl, hok, List.mem_append_right _ ?_⟩
  rw [List.mem_filterMap]
  refine ⟨tc, hmem, ?_⟩
  unfold execToolCall
  simp [hres, hargs, hok, toolResultMsg]

/-- C3 witness: the amended statement on the concrete malformed round. -/
theorem C3_witness :
    ∃ s' result, toolExecutor ecommerceToolHandlers c3MalformedState = some s' ∧
      (fun p => CancelOrder (unmarshalCancelOrderArgs p)) (.malformed "not-json") =
        .ok result ∧
      toolResultMsg result "call_3" ∈ s'.messages :=
  C3_theorem c3MalformedState
    (assistantMsg "" [toolCallMk "call_3" "cancel_order" (.malformed "not-json")])
    (toolCallMk "call_3" "cancel_order" (.malformed "not-json"))
    (fun p => CancelOrder (unmarshalCancelOrderArgs p)) "not-json"
    rfl (by simp [assistantMsg]) rfl rfl

/-! ## Claim C4 -/

/-- An assistant response with BOTH content and tool calls populated. -/
def c4BothState : AgentState (Option Order) :=
  { context := none,
    messages := [assistantMsg "I will refund your order now."
      [toolCallMk "call_4" "issue_refund" (.obj [("order_id", .str "A1"), ("amount", .num 19)])]] }

/-- C4 counterexample: on a response with both content and tool calls
populated the branch routes to the `tools` node — the loop enters tool
execution instead of treating the response as terminal. -/
theorem C4_counterexample :
    (assistantMsg "I will refund your order now."
      [toolCallMk "call_4" "issue_refund"
        (.obj [("order_id", .str "A1"), ("amount", .num 19)])]).content ≠ "" ∧
    (assistantMsg "I will refund your order now."
      [toolCallMk "call_4" "issue_refund"
        (.obj [("order_id", .str "A1"), ("amount", .num 19)])]).toolCalls ≠ [] ∧
    branch c4BothState = some NodeName.tools ∧
    NodeName.tools ≠ NodeName.endNode := by
  refine ⟨by decide, by decide, by decide, by decide⟩

/-- C4 amended: the loop's branch is decided solely by whether the
response's tool-call list is empty, regardless of content: an empty list
(including the both-empty shape) ends the loop, while any non-empty list
(including the both-populated shape) enters tool execution. -/
theorem C4_theorem {Ctx : Type} (state : AgentState Ctx) (lastMsg : Message)
    (hl : state.messages.getLast? = some lastMsg) :
    (branch state = some NodeName.endNode ↔ lastMsg.toolCalls = []) ∧
    (branch state = some NodeName.tools ↔ lastMsg.toolCalls ≠ []) := by
  rw [branch_eq state lastMsg hl]
  by_cases h : lastMsg.toolCalls = []
  · rw [if_neg (by simp [h])]
    simp [h]
  · rw [if_pos (List.length_pos.mpr h)]
    simp [h]

/-- An assistant response with both content and tool calls empty. -/
def c4EmptyState : AgentState (Option Order) :=
  { context := none, messages := [assistantMsg "" []] }

/-- C4 witness: the amended statement on a concrete both-empty response. -/
theorem C4_witness :
    (branch c4EmptyState = some NodeName.endNode ↔ (assistantMsg "" []).toolCalls = []) ∧
    (branch c4EmptyState = some NodeName.tools ↔ (assistantMsg "" []).toolCalls ≠ []) :=
  C4_theorem c4EmptyState (assistantMsg "" []) rfl

/-! ## Claim C5 -/

/-- The message log the direct loop leaves behind on the spec's scripted
round-trip: the seeded user message, the assistant message requesting
`add(x=2,y=3)`, and the tool result `"5"` — no system message, and the
final assistant answer is printed without being appended. -/
def c5RoundTripLog : List Message :=
  [userMessage "What is 2 + 3?",
   assistantMsg "" [toolCallMk "call_1" "add" (.obj [("x", .num 2), ("y", .num 3)])],
   toolResultMsg "5" "call_1"]

/-- C5 counterexample: the scripted round-trip leaves a log of length 3,
not 5, and the log contains no system-role message — the code seeds the
log with the user message only and never appends a system prompt or the
final assistant answer. -/
theorem C5_counterexample :
    runDirectLoop scriptedInvoker "What is 2 + 3?" = .ok c5RoundTripLog "5" ∧
    c5RoundTripLog.length = 3 ∧
    c5RoundTripLog.countP (fun m => m.role == Role.system) = 0 := by
  refine ⟨by decide, by decide, by decide⟩

/-- C5 amended: the initial log is seeded with the caller-supplied user
message only (no system message is stored in the log); running the spec's
scripted round-trip through the direct loop produces a log of exactly the
three messages user / assistant-with-invocation / tool-result-`"5"`, and
the final assistant answer `"5"` is returned for printing without being
appended to the log. -/
theorem C5_theorem :
    runDirectLoop scriptedInvoker "What is 2 + 3?" = .ok c5RoundTripLog "5" ∧
    c5RoundTripLog.head? = some (userMessage "What is 2 + 3?") ∧
    c5RoundTripLog.map (fun m => m.role) = [Role.user, Role.assistant, Role.tool] := by
  refine ⟨by decide, by decide, by decide⟩

/-! ## Claim C6 -/

/-- C6: a resolved handler that returns an error is recovered inside the
executor: the executor still succeeds and the log gains a tool-role
message with content `"Error: <message>"` carrying the invocation's id. -/
theorem C6_theorem {Ctx : Type} (handlers : String → Option Handler)
    (state : AgentState Ctx) (lastMsg : Message) (tc : ToolCall)
    (h : Handler) (e : String)
    (hl : state.messages.getLast? = some lastMsg)
    (hmem : tc ∈ lastMsg.toolCalls)
    (hres : handlers tc.function.name = some h)
    (herr : h tc.function.arguments = .error e) :
    ∃ s', toolExecutor handlers state = some s' ∧
      { role := Role.tool, content := "Error: " ++ e, toolCalls := [],
        toolCallID := tc.id } ∈ s'.messages := by
  have hne : ¬lastMsg.toolCalls.isEmpty := by
    rw [List.isEmpty_iff]
    intro hnil
    rw [hnil] at hmem
    exact absurd hmem (List.not_mem_nil tc)
  rw [toolExecutor_eq handlers state lastMsg hl, if_neg hne]
  refine ⟨_, rfl, List.mem_append_right _ ?_⟩
  rw [List.mem_filterMap]
  refine ⟨tc, hmem, ?_⟩
  unfold execToolCall
  simp only [hres, herr]

/-- A handler map with a single tool whose handler always fails,
exercising the executor's error-capture path (part_012 lines 596-605). -/
def failingHandlers : String → Option Handler := fun name =>
  if name = "flaky_lookup" then some (fun _ => .error "backend unavailable")
  else none

/-- A round invoking the failing tool. -/
def c6FailState : AgentState (Option Order) :=
  { context := none,
    messages := [assistantMsg "" [toolCallMk "call_6" "flaky_lookup" (.obj [])]] }

/-- C6 witness: the statement evaluated on the concrete failing handler. -/
theorem C6_witness :
    ∃ s', toolExecutor failingHandlers c6FailState = some s' ∧
      { role := Role.tool, content := "Error: " ++ "backend unavailable",
        toolCalls := [], toolCallID := "call_6" } ∈ s'.messages :=
  C6_theorem failingHandlers c6FailState
    (assistantMsg "" [toolCallMk "call_6" "flaky_lookup" (.obj [])])
    (toolCallMk "call_6" "flaky_lookup" (.obj []))
    (fun _ => .error "backend unavailable") "backend unavailable"
    rfl (by simp [assistantMsg]) rfl rfl

/-! ## Claim C7 -/

/-- The graph run out of fuel in zero steps. -/
theorem runGraph_zero {Ctx : Type} (promptBuilder : Ctx → String)
    (generate : List Message → Except String Message)
    (handlers : String → Option Handler) (state : AgentState Ctx) :
    runGraph promptBuilder generate handlers 0 state = .error .fuelExhausted := rfl

/-- C7: a model-invoker failure on the current round (the chat model's
`Generate` returning an error on the full prompt-plus-history input) is
not masked: the run terminates with that failure and its underlying cause,
and the caller receives the error instead of a final state.  Since every
later round is itself a `runGraph` call on the then-current state, this
covers a failure on any round. -/
theorem C7_theorem {Ctx : Type} (promptBuilder : Ctx → String)
    (generate : List Message → Except String Message)
    (handlers : String → Option Handler) (fuel : Nat)
    (state : AgentState Ctx) (e : String)
    (hfail : generate (systemMessage (promptBuilder state.context) :: state.messages) =
      .error e)
    (hfuel : 0 < fuel) :
    runGraph promptBuilder generate handlers fuel state =
      .error (.modelFailure e) := by
  obtain ⟨n, rfl⟩ : ∃ n, fuel = n + 1 := ⟨fuel - 1, by omega⟩
  have ha : assistant promptBuilder generate state = .error e := by
    unfold assistant
    rw [hfail]
  rw [runGraph_succ]
  simp only [ha]

/-- The demo initial state of the ecommerce `main` (integral order total). -/
def c7DemoState : AgentState (Option Order) :=
  { context := some ⟨"A12345", "Delivered", 19, "CUST001"⟩,
    messages := [userMessage "My mug arrived broken. Refund?"] }

/-- C7 witness: a network-level model failure surfaces to the caller. -/
theorem C7_witness :
    runGraph ecommerceSysPrompt (fun _ => Except.error "401 unauthorized")
      ecommerceToolHandlers 1 c7DemoState = .error (.modelFailure "401 unauthorized") :=
  C7_theorem ecommerceSysPrompt (fun _ => Except.error "401 unauthorized")
    ecommerceToolHandlers 1 c7DemoState "401 unauthorized" rfl (by decide)

/-! ## Claim C8 -/

/-- C8: the executor never touches the scenario record threaded alongside
the log (`Order` / `Ticket` / `Incident` / `Matter`, the `Ctx` field): any
successful run leaves `context` unchanged and only appends to `messages`. -/
theorem C8_theorem {Ctx : Type} (handlers : String → Option Handler)
    (state s' : AgentState Ctx) (h : toolExecutor handlers state = some s') :
    s'.context = state.context ∧ ∃ tail, s'.messages = state.messages ++ tail := by
  cases hl : state.messages.getLast? with
  | none =>
    unfold toolExecutor at h
    rw [hl] at h
    exact absurd h (by simp)
  | some lastMsg =>
    rw [toolExecutor_eq handlers state lastMsg hl] at h
    by_cases he : lastMsg.toolCalls.isEmpty
    · rw [if_pos he] at h
      injection h with h
      subst h
      exact ⟨rfl, [], by simp⟩
    · rw [if_neg he] at h
      injection h with h
      subst h
      exact ⟨rfl, _, rfl⟩

/-- A round on a state carrying a concrete order record. -/
def c8State : AgentState (Option Order) :=
  { context := some ⟨"B77", "Pending", 42, "CUST002"⟩,
    messages := [assistantMsg "" [toolCallMk "call_8" "update_address_for_order"
      (.obj [("order_id", .str "B77"), ("shipping_address", .str "1 Main St")])]] }

/-- The state the executor produces from `c8State`. -/
def c8OutState : AgentState (Option Order) :=
  { c8State with messages := c8State.messages ++ [toolResultMsg "address_updated" "call_8"] }

/-- C8 witness: the frame property evaluated on a concrete round. -/
theorem C8_witness :
    c8OutState.context = c8State.context ∧
    ∃ tail, c8OutState.messages = c8State.messages ++ tail :=
  C8_theorem ecommerceToolHandlers c8State c8OutState (by decide)

/-! ## Claim C9 -/

/-- C9: for every initial state — including one whose message slice is
empty — and any model, handler map and round budget, the graph run never
hits the out-of-bounds index read `state.Messages[len(state.Messages)-1]`
in the branch or the tool-executor node, because the assistant node always
appends the model's response before either of them runs. -/
theorem C9_theorem {Ctx : Type} (promptBuilder : Ctx → String)
    (generate : List Message → Except String Message)
    (handlers : String → Option Handler) (fuel : Nat) (state : AgentState Ctx) :
    runGraph promptBuilder generate handlers fuel state ≠ .error RunError.indexPanic := by
  induction fuel generalizing state with
  | zero =>
    rw [runGraph_zero]
    simp
  | succ n ih =>
    rw [runGraph_succ]
    cases hgen : assistant promptBuilder generate state with
    | error e => simp
    | ok state1 =>
      obtain ⟨resp, rfl⟩ :=
        assistant_ok_messages promptBuilder generate state state1 hgen
      have hl : ({ state with messages := state.messages ++ [resp] } :
          AgentState Ctx).messages.getLast? = some resp := List.getLast?_concat _
      by_cases hc : resp.toolCalls = []
      · have hb : branch { state with messages := state.messages ++ [resp] } =
            some NodeName.endNode := by
          rw [branch_eq _ resp hl, if_neg (by simp [hc])]
        simp only [hb]
        simp
      · have hb : branch { state with messages := state.messages ++ [resp] } =
            some NodeName.tools := by
          rw [branch_eq _ resp hl, if_pos (List.length_pos.mpr hc)]
        have ht : toolExecutor handlers { state with messages := state.messages ++ [resp] } =
            some { state with
                    messages := (state.messages ++ [resp]) ++
                      resp.toolCalls.filterMap (execToolCall handlers) } := by
          rw [toolExecutor_eq handlers _ resp hl,
            if_neg (by simp [List.isEmpty_iff, hc])]
        simp only [hb, ht]
        exact ih _

/-- C9 witness: no index panic on a run started from an empty message log. -/
theorem C9_witness :
    runGraph ecommerceSysPrompt
      (fun _ => Except.ok (assistantMsg "All set." []))
      ecommerceToolHandlers 3
      { context := (none : Option Order), messages := [] } ≠
      .error RunError.indexPanic :=
  C9_theorem ecommerceSysPrompt (fun _ => Except.ok (assistantMsg "All set." []))
    ecommerceToolHandlers 3 { context := none, messages := [] }

/-! ## Claim C10 -/

/-- Unfolding of the direct dispatch loop on one tool call. -/
theorem execToolCalls_cons (tc : ToolCall) (rest : List ToolCall) (msgs : List Message) :
    execToolCalls (tc :: rest) msgs =
      match mathToolMap tc.function.name with
      | none => none
      | some run =>
        execToolCalls rest (msgs ++
          [toolResultMsg
            (match run tc.function.arguments with
              | .ok s => s
              | .error _ => "")
            tc.id]) := rfl

/-- C10: the direct loop's dispatch is panic-free when every requested name
is one of the registered tools `multiply` / `exponentiate` / `add`; and for
a response requesting an unregistered name (`subtract`) the nil-interface
method call fails at process level (the run panics) instead of being
contained as an error message. -/
theorem C10_theorem :
    (∀ (tcs : List ToolCall) (msgs : List Message),
        (∀ tc ∈ tcs, tc.function.name = "multiply" ∨ tc.function.name = "exponentiate" ∨
            tc.function.name = "add") →
        (execToolCalls tcs msgs).isSome) ∧
    runDirectLoop
      (fun _ => Except.ok (assistantMsg "" [toolCallMk "call_7" "subtract" (.obj [])]))
      "What is 7 minus 2?" = .panicked := by
  constructor
  · intro tcs
    induction tcs with
    | nil => exact fun msgs h => rfl
    | cons tc rest ih =>
      intro msgs h
      have hname := h tc (List.mem_cons_self tc rest)
      cases hm : mathToolMap tc.function.name with
      | none =>
        exfalso
        rcases hname with h1 | h1 | h1 <;> rw [h1] at hm <;>
          exact absurd hm (by simp [mathToolMap])
      | some run =>
        rw [execToolCalls_cons]
        simp only [hm]
        exact ih _ (fun tc' htc' => h tc' (List.mem_cons_of_mem tc htc'))
  · decide

/-- C10 witness: the registered-names precondition discharged on a
concrete request. -/
theorem C10_witness :
    (execToolCalls [toolCallMk "call_add" "add" (.obj [("x", .num 11), ("y", .num 49)])]
      [userMessage "What is 11 + 49?"]).isSome :=
  C10_theorem.1 _ _ (by decide)
